import Mathlib

/-!
Verification of the lead-capture backend (`src/main.py`) against its
natural-language specification.

The development shallowly embeds the program:
  * the Pydantic `Lead` submission and the stored lead document become Lean
    structures;
  * the Mongo-style document store becomes an association list of
    `(id, record)` pairs, threaded explicitly through the handlers;
  * `secrets.token_urlsafe(32)` becomes base64url encoding of an explicit
    list of 32 random bytes (the bytes `os.urandom` would have produced);
  * `urllib.parse.urlencode` (via `quote_plus`) and Python's `int()` parsing
    are embedded as executable functions on strings;
  * the SMTP side effect becomes a value describing the action the code
    performs (console-log fallback, SMTP send, or a raised exception),
    with the transport's own outcome supplied as a parameter.
-/

namespace LeadBackend

/-- Modelled from the spec: the submission schema `schemas.Lead` (file
`schemas.py` is not under `src/`). §3 lists the attributes: name, company,
email address, interest category, purpose, consent flag, optional free-text
message — the same fields `main.py` reads from a `Lead` value. -/
structure Lead where
  name : String
  company : String
  email : String
  interest : String
  purpose : String
  consent : Bool
  message : Option String
deriving DecidableEq

/-- The `status` field of a stored lead document: `main.py` writes
`"pending"` at creation and the spec's state machine adds `"confirmed"`. -/
inductive LeadStatus where
  | pending
  | confirmed
deriving DecidableEq

/-- The stored lead document built at `src/main.py:86-87`: all submission
fields plus `status`, `confirm_token` and `confirmed_at`. -/
structure LeadRecord where
  lead : Lead
  status : LeadStatus
  confirm_token : String
  confirmed_at : Option Nat
deriving DecidableEq

/-- The Lead Record Store: documents keyed by an opaque id. -/
abbrev Store := List (String × LeadRecord)

/-- The JSON body returned by `GET /api/confirm`. -/
structure ConfirmResponse where
  success : Bool
  message : String
deriving DecidableEq

/-- `confirm_waitlist` (`src/main.py:99-104`): the handler ignores the token
and the store and returns a fixed success body. The store is threaded
through to express that the handler performs no read or write on it; the
returned store is the input store, untouched, exactly as in the source
(which contains no store operation at all). -/
def confirm_waitlist (store : Store) (_token : String) : ConfirmResponse × Store :=
  ({ success := true, message := "Anmeldung bestätigt" }, store)

/-- A concrete pending record used to exercise `confirm_waitlist`. -/
def sampleLead : Lead :=
  { name := "A", company := "B", email := "a@b.com", interest := "x",
    purpose := "y", consent := true, message := none }

/-- A one-record store holding a pending lead with confirm token `"t0"`. -/
def samplePendingStore : Store :=
  [("lead-0", { lead := sampleLead, status := .pending,
                confirm_token := "t0", confirmed_at := none })]

/-! ### Token issuance: `secrets.token_urlsafe(32)` (`src/main.py:85`)

`secrets.token_urlsafe(n)` is `base64.urlsafe_b64encode(os.urandom(n))`
with the `=` padding stripped. We embed it as a pure function of the `n`
random bytes `os.urandom` produced: `b64Chunks` turns the byte list into
base64 sextets (the final one- or two-byte group yields two or three
sextets, matching the stripped padding), and each sextet is rendered with
the URL-safe base64 alphabet `A–Z a–z 0–9 - _`. -/

/-- The URL-safe base64 alphabet, in sextet order. -/
def URLSAFE_ALPHABET : List Char :=
  ['A', 'B', 'C', 'D', 'E', 'F', 'G', 'H', 'I', 'J', 'K', 'L', 'M',
   'N', 'O', 'P', 'Q', 'R', 'S', 'T', 'U', 'V', 'W', 'X', 'Y', 'Z',
   'a', 'b', 'c', 'd', 'e', 'f', 'g', 'h', 'i', 'j', 'k', 'l', 'm',
   'n', 'o', 'p', 'q', 'r', 's', 't', 'u', 'v', 'w', 'x', 'y', 'z',
   '0', '1', '2', '3', '4', '5', '6', '7', '8', '9', '-', '_']

/-- Character for a sextet value (0–63). -/
def sextetChar (n : Nat) : Char := URLSAFE_ALPHABET.getD n 'A'

/-- Sextet value of an alphabet character (left inverse of `sextetChar`). -/
def charSextet (c : Char) : Nat := URLSAFE_ALPHABET.indexOf c

/-- Bytes to base64 sextets; a trailing group of one or two bytes yields
two or three sextets, i.e. the encoding with `=` padding already
stripped, as `token_urlsafe` produces. -/
def b64Chunks : List Nat → List Nat
  | [] => []
  | [b1] => [b1 / 4, b1 % 4 * 16]
  | [b1, b2] => [b1 / 4, b1 % 4 * 16 + b2 / 16, b2 % 16 * 4]
  | b1 :: b2 :: b3 :: rest =>
      b1 / 4 :: (b1 % 4 * 16 + b2 / 16) :: (b2 % 16 * 4 + b3 / 64) :: b3 % 64
        :: b64Chunks rest

/-- `secrets.token_urlsafe` as a function of the random bytes drawn from
`os.urandom`: base64url-encode them with padding stripped. -/
def token_urlsafe (bytes : List Nat) : String :=
  String.mk ((b64Chunks bytes).map sextetChar)

/-- Inverse of `b64Chunks` on well-formed sextet lists. -/
def b64Unchunks : List Nat → List Nat
  | [s1, s2] => [s1 * 4 + s2 / 16]
  | [s1, s2, s3] => [s1 * 4 + s2 / 16, s2 % 16 * 16 + s3 / 4]
  | s1 :: s2 :: s3 :: s4 :: rest =>
      (s1 * 4 + s2 / 16) :: (s2 % 16 * 16 + s3 / 4) :: (s3 % 4 * 64 + s4)
        :: b64Unchunks rest
  | _ => []

/-- Decode a token back to its byte list (witnesses injectivity of
`token_urlsafe`, i.e. that no entropy of the random bytes is lost). -/
def token_decode (s : String) : List Nat :=
  b64Unchunks (s.toList.map charSextet)

/-! ### `urllib.parse.urlencode` / `quote_plus` (`src/main.py:8,69`)

`urlencode({'token': token})` renders `token=<quote_plus(token)>`.
`quote_plus` keeps ASCII alphanumerics and `_ . - ~`, turns a space into
`+`, and percent-encodes every other character's UTF-8 bytes in upper-case
hex. We embed the UTF-8 encoder for code points directly; Python also
accepts non-ASCII decimal digits in its safe set only via the ASCII check,
so the ASCII-only `Char.isAlpha`/`Char.isDigit` match CPython. -/

/-- The characters `quote_plus` never encodes (Python's always-safe set
with an empty extra-safe string, as `urlencode` passes). -/
def quotePlusSafe (c : Char) : Bool :=
  c.isAlpha || c.isDigit || c = '_' || c = '.' || c = '-' || c = '~'

/-- Upper-case hex digit for a value 0–15. -/
def hexUpper (n : Nat) : Char :=
  if n < 10 then Char.ofNat (48 + n) else Char.ofNat (55 + n)

/-- Percent-encoding of one byte, `%XX`. -/
def percentByte (b : Nat) : List Char :=
  ['%', hexUpper (b / 16), hexUpper (b % 16)]

/-- UTF-8 bytes of a Unicode code point. -/
def utf8Bytes (n : Nat) : List Nat :=
  if n < 128 then [n]
  else if n < 2048 then [192 + n / 64, 128 + n % 64]
  else if n < 65536 then [224 + n / 4096, 128 + n / 64 % 64, 128 + n % 64]
  else [240 + n / 262144, 128 + n / 4096 % 64, 128 + n / 64 % 64, 128 + n % 64]

/-- `quote_plus` acting on a single character. -/
def quotePlusChar (c : Char) : List Char :=
  if quotePlusSafe c then [c]
  else if c = ' ' then ['+']
  else ((utf8Bytes c.toNat).map percentByte).flatten

/-- `urllib.parse.quote_plus` with `safe=''` (what `urlencode` uses). -/
def quote_plus (s : String) : String :=
  String.mk (s.toList.map quotePlusChar).flatten

/-- `urllib.parse.urlencode` on a list of string pairs. -/
def urlencode (params : List (String × String)) : String :=
  String.intercalate "&"
    (params.map (fun p => quote_plus p.1 ++ "=" ++ quote_plus p.2))

/-! ### Python `int()` (`src/main.py:30`)

`_send_email` computes `int(os.getenv("SMTP_PORT", "587"))` before the
SMTP-configured check, so an `SMTP_PORT` value that is not an integer
literal raises `ValueError` even when the transport is unconfigured. We
embed `int()` on strings: strip surrounding whitespace, optional sign,
then ASCII decimal digits with single underscores between digits. -/

/-- Whitespace stripped by `int()` (ASCII subset). -/
def pyIsSpace (c : Char) : Bool :=
  c = ' ' || c = '\t' || c = '\n' || c = '\r' || c = '\x0b' || c = '\x0c'

/-- After the leading digit: digits, with single underscores only between
digits (no trailing or doubled underscore). -/
def pyDigitsTail : List Char → Bool
  | [] => true
  | '_' :: c :: rest => c.isDigit && pyDigitsTail rest
  | c :: rest => c.isDigit && pyDigitsTail rest

/-- A nonempty digit group: leading digit then `pyDigitsTail`. -/
def pyIntBody : List Char → Bool
  | [] => false
  | c :: rest => c.isDigit && pyDigitsTail rest

/-- Numeric value of a digit group, ignoring underscores. -/
def pyDigitsNat (cs : List Char) : Nat :=
  cs.foldl (fun acc c => if c = '_' then acc else acc * 10 + (c.toNat - 48)) 0

/-- Python `int(s)`: `some` value, or `none` when `int()` raises
`ValueError`. -/
def pyInt (s : String) : Option Int :=
  let cs := s.toList.dropWhile pyIsSpace
  let cs := (cs.reverse.dropWhile pyIsSpace).reverse
  match cs with
  | '+' :: rest => if pyIntBody rest then some (Int.ofNat (pyDigitsNat rest)) else none
  | '-' :: rest => if pyIntBody rest then some (-(Int.ofNat (pyDigitsNat rest))) else none
  | rest => if pyIntBody rest then some (Int.ofNat (pyDigitsNat rest)) else none

/-! ### The mail side (`src/main.py:28-78`)

`_send_email` reads its configuration from the environment at call time;
we pass the relevant environment variables explicitly (`none` = unset —
note Python's `not x` is also true for a set-but-empty string, captured by
`isBlank`). The SMTP transport itself is opaque; its outcome is a
parameter: `none` = the send succeeds, `some e` = `smtplib` raises `e`.
The function's result is `Except`: `.error` models an escaping Python
exception, `.ok` the performed action. -/

/-- The environment variables `main.py` reads for mail and links. -/
structure MailEnv where
  smtp_host : Option String
  smtp_port : Option String
  smtp_username : Option String
  smtp_password : Option String
  smtp_from : Option String
  admin_email : Option String
  frontend_url : Option String
deriving DecidableEq

/-- What an email call did: the console fallback print, or an SMTP send. -/
inductive EmailAction where
  | consoleLog (line : String)
  | smtpSend (host : String) (port : Int) (username password from_addr
      to_addr subject body : String)
deriving DecidableEq

/-- Python falsiness of `os.getenv(...)`: unset, or set to `""`. -/
def isBlank : Option String → Bool
  | none => true
  | some s => s.isEmpty

/-- `_send_email` (`src/main.py:28-49`). The port is parsed with `int()`
before the configured check, exactly as in the source; an unparsable
`SMTP_PORT` therefore raises `ValueError` first. With host, username or
password blank the message is printed in the `[EMAIL-FALLBACK]` format;
otherwise the SMTP transport runs and its exception, if any,
propagates. -/
def _send_email (env : MailEnv) (transport : Option String)
    (subject body to_email : String) : Except String EmailAction :=
  match pyInt (env.smtp_port.getD "587") with
  | none => .error "ValueError: invalid literal for int() with base 10"
  | some port =>
    if isBlank env.smtp_host || isBlank env.smtp_username || isBlank env.smtp_password then
      .ok (.consoleLog ("[EMAIL-FALLBACK] To: " ++ to_email ++ "\nSubject: "
            ++ subject ++ "\n\n" ++ body))
    else
      match transport with
      | some e => .error e
      | none =>
          .ok (.smtpSend (env.smtp_host.getD "") port (env.smtp_username.getD "")
                (env.smtp_password.getD "")
                (env.smtp_from.getD (env.admin_email.getD "no-reply@kmu-freight.com"))
                to_email subject body)

/-- Python's `str()` of a bool, as an f-string renders `lead.consent`. -/
def pyBoolStr (b : Bool) : String := if b then "True" else "False"

/-- Subject of the admin notification (`src/main.py:54`). -/
def admin_subject : String := "Neuer Warteliste/Lead – KMU‑Freight"

/-- Body of the admin notification (`src/main.py:55-63`); `lead.message or
'-'` substitutes `-` for a missing or empty message. -/
def admin_body (lead : Lead) : String :=
  "Name: " ++ lead.name ++ "\n" ++
  "Firma: " ++ lead.company ++ "\n" ++
  "E-Mail: " ++ lead.email ++ "\n" ++
  "Interesse: " ++ lead.interest ++ "\n" ++
  "Zweck: " ++ lead.purpose ++ "\n" ++
  "Einwilligung: " ++ pyBoolStr lead.consent ++ "\n" ++
  "Nachricht: " ++ (match lead.message with
                    | none => "-"
                    | some m => if m.isEmpty then "-" else m) ++ "\n"

/-- `notify_admin_waitlist` (`src/main.py:52-64`). -/
def notify_admin_waitlist (env : MailEnv) (transport : Option String)
    (lead : Lead) : Except String EmailAction :=
  _send_email env transport admin_subject (admin_body lead)
    (env.admin_email.getD "max.salterberg@kmu-freight.com")

/-- The confirmation link of `src/main.py:69`: with a nonempty base URL,
`{base}/confirm?{urlencode({'token': token})}`; otherwise the relative
`/confirm?token={token}` with the token embedded verbatim. -/
def confirm_link (base token : String) : String :=
  if base.isEmpty then "/confirm?token=" ++ token
  else base ++ "/confirm?" ++ urlencode [("token", token)]

/-- Subject of the opt-in email (`src/main.py:70`). -/
def opt_in_subject : String := "Bitte bestätige deine Anmeldung – KMU‑Freight"

/-- Body of the opt-in email (`src/main.py:71-77`), around a given link. -/
def opt_in_body (confirm_url : String) : String :=
  "Hallo,\n\n" ++
  "bitte bestätige deine Anmeldung zur Warteliste, indem du auf den folgenden Link klickst:\n" ++
  confirm_url ++ "\n\n" ++
  "Wenn du diese Anfrage nicht gestellt hast, ignoriere diese Nachricht.\n\n" ++
  "Viele Grüße\nKMU‑Freight"

/-- `send_double_opt_in` (`src/main.py:67-78`). -/
def send_double_opt_in (env : MailEnv) (transport : Option String)
    (to_email token : String) : Except String EmailAction :=
  _send_email env transport opt_in_subject
    (opt_in_body (confirm_link (env.frontend_url.getD "") token)) to_email

/-- An environment with nothing configured at all. -/
def envAllMissing : MailEnv :=
  { smtp_host := none, smtp_port := none, smtp_username := none,
    smtp_password := none, smtp_from := none, admin_email := none,
    frontend_url := none }

/-- Host/username/password unset, but `SMTP_PORT` set to a non-integer. -/
def envBadPort : MailEnv :=
  { smtp_host := none, smtp_port := some "nope", smtp_username := none,
    smtp_password := none, smtp_from := none, admin_email := none,
    frontend_url := none }

/-! ### The submit endpoint (`src/main.py:81-96`) -/

/-- The two background tasks queued by `create_lead`. -/
inductive EmailTask where
  | notifyAdmin (lead : Lead)
  | sendDoubleOptIn (email : String) (token : String)
deriving DecidableEq

/-- An HTTP handler outcome: a 200 body, or a raised `HTTPException`. -/
inductive ApiResult (α : Type) where
  | ok (body : α)
  | httpError (status : Nat) (detail : String)
deriving DecidableEq

/-- The 200 body of `POST /api/leads` (`src/main.py:94`). -/
structure CreateLeadResponse where
  success : Bool
  id : String
  double_opt_in : Bool
deriving DecidableEq

/-- Modelled from the spec: `database.create_document` (file `database.py`
is not under `src/`). §2: the Lead Record Store persists lead documents
keyed by an opaque id and supports create. We model the store as an
association list, creation as appending under a fresh nonempty id, and a
store outage as the raised exception's message `some e` (caught by the
handler's `except`, which reports `str(e)`). -/
def create_document (storeFail : Option String) (store : Store)
    (data : LeadRecord) : Except String (String × Store) :=
  match storeFail with
  | some e => .error e
  | none =>
      let doc_id := "lead-" ++ toString (store.length + 1)
      .ok (doc_id, store ++ [(doc_id, data)])

/-- `create_lead` (`src/main.py:81-96`), after body validation: generate
the token from the fresh random bytes, store the document with
`status = "pending"`, `confirm_token` and `confirmed_at = None` added,
queue the two background tasks, and return the 200 body; if
`create_document` raises, the `except` turns it into
`HTTPException(500, str(e))` and no task is queued. -/
def create_lead (storeFail : Option String) (tokenBytes : List Nat)
    (lead : Lead) (store : Store) :
    ApiResult CreateLeadResponse × Store × List EmailTask :=
  let token := token_urlsafe tokenBytes
  let data : LeadRecord :=
    { lead := lead, status := .pending, confirm_token := token,
      confirmed_at := none }
  match create_document storeFail store data with
  | .error e => (.httpError 500 e, store, [])
  | .ok (lead_id, store') =>
      (.ok { success := true, id := lead_id, double_opt_in := true }, store',
       [.notifyAdmin lead, .sendDoubleOptIn lead.email token])

/-- Modelled from the spec: request-body validation by `schemas.Lead`
(file `schemas.py` is not under `src/`). §3 requires the consent flag to
be true for a submission to be accepted; §7 rejects such a submission
with a client error before any record is created. -/
def validate_lead (lead : Lead) : Bool := lead.consent

/-- The full `POST /api/leads` request path: framework validation first
(client error 422, nothing stored, no task queued), then the handler. -/
def handle_create_lead (storeFail : Option String) (tokenBytes : List Nat)
    (lead : Lead) (store : Store) :
    ApiResult CreateLeadResponse × Store × List EmailTask :=
  if validate_lead lead then create_lead storeFail tokenBytes lead store
  else (.httpError 422 "consent must be true", store, [])

/-- Run one queued background task (after the response is built). -/
def run_email_task (env : MailEnv) (transport : Option String) :
    EmailTask → Except String EmailAction
  | .notifyAdmin lead => notify_admin_waitlist env transport lead
  | .sendDoubleOptIn email token => send_double_opt_in env transport email token

/-- A whole submit request: the HTTP result (response body and store) is
fixed by `handle_create_lead`; the queued tasks then run with whatever
mail environment and transport outcome hold, after the response. -/
def submit_request (storeFail : Option String) (env : MailEnv)
    (transport : Option String) (tokenBytes : List Nat) (lead : Lead)
    (store : Store) :
    (ApiResult CreateLeadResponse × Store) × List (Except String EmailAction) :=
  let r := handle_create_lead storeFail tokenBytes lead store
  ((r.1, r.2.1), r.2.2.map (run_email_task env transport))

/-- A submission whose consent flag is false. -/
def sampleLeadNoConsent : Lead :=
  { name := "A", company := "B", email := "a@b.com", interest := "x",
    purpose := "y", consent := false, message := none }

/-! ## Helper lemmas -/

theorem b64_roundtrip : (l : List Nat) → (∀ b ∈ l, b < 256) →
    b64Unchunks (b64Chunks l) = l
  | [], _ => rfl
  | [b1], _h => by
      simp only [b64Chunks, b64Unchunks, List.cons.injEq, and_true]
      omega
  | [b1, b2], h => by
      have hb2 : b2 < 256 := h b2 (by simp)
      simp only [b64Chunks, b64Unchunks, List.cons.injEq, and_true]
      omega
  | b1 :: b2 :: b3 :: rest, h => by
      have hb2 : b2 < 256 := h b2 (by simp)
      have hb3 : b3 < 256 := h b3 (by simp)
      have ih := b64_roundtrip rest (fun b hb => h b (by simp [hb]))
      simp only [b64Chunks, b64Unchunks, List.cons.injEq, ih, and_true]
      omega

theorem b64Chunks_lt : (l : List Nat) → (∀ b ∈ l, b < 256) →
    ∀ s ∈ b64Chunks l, s < 64
  | [], _ => by simp [b64Chunks]
  | [b1], h => by
      have hb1 : b1 < 256 := h b1 (by simp)
      simp only [b64Chunks, List.mem_cons, List.not_mem_nil, or_false]
      rintro s (rfl | rfl) <;> omega
  | [b1, b2], h => by
      have hb1 : b1 < 256 := h b1 (by simp)
      have hb2 : b2 < 256 := h b2 (by simp)
      simp only [b64Chunks, List.mem_cons, List.not_mem_nil, or_false]
      rintro s (rfl | rfl | rfl) <;> omega
  | b1 :: b2 :: b3 :: rest, h => by
      have hb1 : b1 < 256 := h b1 (by simp)
      have hb2 : b2 < 256 := h b2 (by simp)
      have hb3 : b3 < 256 := h b3 (by simp)
      have ih := b64Chunks_lt rest (fun b hb => h b (by simp [hb]))
      simp only [b64Chunks, List.mem_cons]
      rintro s (rfl | rfl | rfl | rfl | hs)
      · omega
      · omega
      · omega
      · omega
      · exact ih s hs

theorem charSextet_sextetChar : ∀ n < 64, charSextet (sextetChar n) = n := by
  decide

theorem map_charSextet_of_lt (l : List Nat) (h : ∀ s ∈ l, s < 64) :
    (l.map sextetChar).map charSextet = l := by
  induction l with
  | nil => rfl
  | cons a t ih =>
      simp only [List.map_cons, List.cons.injEq]
      exact ⟨charSextet_sextetChar a (h a (by simp)),
             ih (fun s hs => h s (by simp [hs]))⟩

theorem token_decode_token_urlsafe (bs : List Nat) (h : ∀ b ∈ bs, b < 256) :
    token_decode (token_urlsafe bs) = bs := by
  show b64Unchunks (((b64Chunks bs).map sextetChar).map charSextet) = bs
  rw [map_charSextet_of_lt _ (b64Chunks_lt bs h), b64_roundtrip bs h]

theorem sextetChar_mem_alphabet : ∀ n, sextetChar n ∈ URLSAFE_ALPHABET := by
  intro n
  unfold sextetChar
  by_cases h : n < URLSAFE_ALPHABET.length
  · rw [List.getD_eq_getElem _ _ h]
    exact List.getElem_mem h
  · rw [List.getD_eq_default _ _ (by omega)]
    decide

theorem alphabet_safe : ∀ c ∈ URLSAFE_ALPHABET, quotePlusSafe c = true := by
  decide

theorem quotePlusChar_of_safe (c : Char) (h : quotePlusSafe c = true) :
    quotePlusChar c = [c] := by
  unfold quotePlusChar
  simp [h]

theorem flatten_map_quotePlusChar (l : List Char)
    (h : ∀ c ∈ l, quotePlusSafe c = true) :
    (l.map quotePlusChar).flatten = l := by
  induction l with
  | nil => rfl
  | cons a t ih =>
      simp only [List.map_cons, List.flatten_cons,
        quotePlusChar_of_safe a (h a (by simp)),
        ih (fun c hc => h c (by simp [hc]))]
      rfl

theorem quote_plus_of_safe (s : String)
    (h : ∀ c ∈ s.toList, quotePlusSafe c = true) : quote_plus s = s := by
  show String.mk (s.toList.map quotePlusChar).flatten = s
  rw [flatten_map_quotePlusChar s.toList h]
  rfl

theorem lead_id_ne_empty (s : String) : ("lead-" ++ s) ≠ "" := by
  intro h
  have h2 := congrArg String.length h
  rw [String.length_append] at h2
  simp at h2
  exact absurd h2.1 (by decide)

/-! ## The claims -/

/-- C1 (code bug shown at a failing input). The claim says `confirm` with
the valid pending token `"t0"` transitions the record to `confirmed`,
stamps `confirmed_at`, and makes a second call with the same token fail.
The handler at `src/main.py:99-104` instead returns success, leaves the
store byte-for-byte unchanged (the record stays `pending` with
`confirmed_at = none`), and a second call with the same token also
returns success. -/
theorem confirm_is_placeholder_on_valid_token :
    (confirm_waitlist samplePendingStore "t0").1.success = true ∧
    (confirm_waitlist samplePendingStore "t0").2 = samplePendingStore ∧
    ((confirm_waitlist samplePendingStore "t0").2.map
        (fun p => (p.2.status, p.2.confirmed_at)))
      = [(LeadStatus.pending, none)] ∧
    (confirm_waitlist (confirm_waitlist samplePendingStore "t0").2 "t0").1.success
      = true := by
  refine ⟨rfl, rfl, rfl, rfl⟩

/-- C2 (code bug shown at a failing input). The claim says `confirm` with a
token matching no pending record returns `{success: false}` with an
explanatory message distinct from the success outcome. On the empty store
— where no token matches — the handler returns the very success body
`{success: true, message: "Anmeldung bestätigt"}` it returns on success,
so the negative outcome is neither produced nor distinguishable. -/
theorem confirm_unknown_token_reports_success :
    (confirm_waitlist [] "unknown-token").1
      = { success := true, message := "Anmeldung bestätigt" } ∧
    (confirm_waitlist [] "unknown-token").2 = [] := by
  exact ⟨rfl, rfl⟩

/-- C9 (code bug shown at a failing input). The claim says that of several
invocations of `confirm` with the same valid token, at most one may
succeed. Running two calls with the valid token `"t0"` back to back (any
serialisation of two concurrent requests is such a sequence, since each
handler run is atomic over the store it neither reads nor writes), both
calls report success. -/
theorem confirm_double_success_same_token :
    (confirm_waitlist samplePendingStore "t0").1.success = true ∧
    (confirm_waitlist (confirm_waitlist samplePendingStore "t0").2 "t0").1.success
      = true := by
  exact ⟨rfl, rfl⟩

/-- C10 (confirmed). The confirm endpoint is a constant function of its
token: every call returns the identical body
`{success: true, message: "Anmeldung bestätigt"}`, the store after the
call is exactly the store before it (no read or write occurs in the
handler), and the response is the same for any two tokens and any two
stores — so the response reveals nothing about which tokens exist. -/
theorem confirm_constant_response (s s' : Store) (t t' : String) :
    confirm_waitlist s t
      = ({ success := true, message := "Anmeldung bestätigt" }, s) ∧
    (confirm_waitlist s t).1 = (confirm_waitlist s' t').1 := by
  exact ⟨rfl, rfl⟩

/-- Witness for C10: two different stores and tokens. -/
theorem confirm_constant_response_witness :
    confirm_waitlist samplePendingStore "t0"
      = ({ success := true, message := "Anmeldung bestätigt" },
         samplePendingStore) ∧
    (confirm_waitlist samplePendingStore "t0").1
      = (confirm_waitlist ([] : Store) "other").1 :=
  confirm_constant_response samplePendingStore [] "t0" "other"

/-- C3 (confirmed; store and request validation modelled from the spec,
their code being outside `src/`). For every valid submission (consent
true) with the store up, submit stores exactly one new record — the
submission's fields plus `status = pending`, the freshly generated
`confirm_token` and `confirmed_at = none` — and returns
`{success: true, id: <the new nonempty id>, double_opt_in: true}`. -/
theorem create_lead_creates_pending_record (tokenBytes : List Nat)
    (lead : Lead) (store : Store) (hc : lead.consent = true) :
    (handle_create_lead none tokenBytes lead store).1
      = .ok { success := true, id := "lead-" ++ toString (store.length + 1),
              double_opt_in := true } ∧
    ("lead-" ++ toString (store.length + 1)) ≠ "" ∧
    (handle_create_lead none tokenBytes lead store).2.1
      = store ++ [("lead-" ++ toString (store.length + 1),
          { lead := lead, status := .pending,
            confirm_token := token_urlsafe tokenBytes, confirmed_at := none })] ∧
    (handle_create_lead none tokenBytes lead store).2.1.length
      = store.length + 1 := by
  refine ⟨?_, lead_id_ne_empty _, ?_, ?_⟩ <;>
    simp [handle_create_lead, validate_lead, hc, create_lead, create_document]

/-- Witness for C3: the sample submission against the empty store. -/
theorem create_lead_creates_pending_record_witness :
    sampleLead.consent = true ∧
    ((handle_create_lead none [] sampleLead ([] : Store)).1
      = .ok { success := true,
              id := "lead-" ++ toString (([] : Store).length + 1),
              double_opt_in := true } ∧
     ("lead-" ++ toString (([] : Store).length + 1)) ≠ "" ∧
     (handle_create_lead none [] sampleLead ([] : Store)).2.1
      = ([] : Store) ++ [("lead-" ++ toString (([] : Store).length + 1),
          { lead := sampleLead, status := .pending,
            confirm_token := token_urlsafe [], confirmed_at := none })] ∧
     (handle_create_lead none [] sampleLead ([] : Store)).2.1.length
      = ([] : Store).length + 1) :=
  ⟨rfl, create_lead_creates_pending_record [] sampleLead [] rfl⟩

/-- C4 (confirmed; the consent check is modelled from the spec, the
`schemas.Lead` validation code being outside `src/`). A submission with
`consent = false` is rejected with the client error 422 before any record
is created: the store is unchanged, no background task is queued, and the
response carries no id. -/
theorem consent_false_rejected (storeFail : Option String)
    (tokenBytes : List Nat) (lead : Lead) (store : Store)
    (hc : lead.consent = false) :
    (handle_create_lead storeFail tokenBytes lead store).1
      = .httpError 422 "consent must be true" ∧
    (handle_create_lead storeFail tokenBytes lead store).2.1 = store ∧
    (handle_create_lead storeFail tokenBytes lead store).2.2 = [] := by
  refine ⟨?_, ?_, ?_⟩ <;> simp [handle_create_lead, validate_lead, hc]

/-- Witness for C4: the sample no-consent submission, store up. -/
theorem consent_false_rejected_witness :
    sampleLeadNoConsent.consent = false ∧
    ((handle_create_lead none [] sampleLeadNoConsent ([] : Store)).1
      = .httpError 422 "consent must be true" ∧
     (handle_create_lead none [] sampleLeadNoConsent ([] : Store)).2.1 = [] ∧
     (handle_create_lead none [] sampleLeadNoConsent ([] : Store)).2.2 = []) :=
  ⟨rfl, consent_false_rejected none [] sampleLeadNoConsent [] rfl⟩

/-- C5 (confirmed). `secrets.token_urlsafe(32)` encodes 32 fresh random
bytes — 256 bits — injectively (no entropy is lost: the encoding is
invertible on 32-byte inputs, so the 2^256 possible byte strings yield
2^256 distinct tokens), and every character of the token lies in the
URL-safe base64 alphabet; in particular `quote_plus` — the escaping a URL
query parameter would need — leaves the token unchanged, so it embeds in
a query string without further escaping. -/
theorem token_urlsafe_entropy_and_url_safety (bs : List Nat)
    (_hlen : bs.length = 32) (hbytes : ∀ b ∈ bs, b < 256) :
    (∀ bs' : List Nat, (∀ b ∈ bs', b < 256) →
        token_urlsafe bs = token_urlsafe bs' → bs = bs') ∧
    (∀ c ∈ (token_urlsafe bs).toList,
        c ∈ URLSAFE_ALPHABET ∧ quotePlusSafe c = true) ∧
    quote_plus (token_urlsafe bs) = token_urlsafe bs := by
  refine ⟨?_, ?_, ?_⟩
  · intro bs' hb' heq
    have hd := token_decode_token_urlsafe bs hbytes
    rw [heq, token_decode_token_urlsafe bs' hb'] at hd
    exact hd.symm
  · intro c hc
    have hc' : c ∈ (b64Chunks bs).map sextetChar := hc
    obtain ⟨n, _, rfl⟩ := List.mem_map.mp hc'
    exact ⟨sextetChar_mem_alphabet n, alphabet_safe _ (sextetChar_mem_alphabet n)⟩
  · apply quote_plus_of_safe
    intro c hc
    have hc' : c ∈ (b64Chunks bs).map sextetChar := hc
    obtain ⟨n, _, rfl⟩ := List.mem_map.mp hc'
    exact alphabet_safe _ (sextetChar_mem_alphabet n)

/-- Witness for C5: the all-zero 32-byte string. -/
theorem token_urlsafe_entropy_witness :
    (List.replicate 32 (0 : Nat)).length = 32 ∧
    (∀ b ∈ List.replicate 32 (0 : Nat), b < 256) ∧
    ((∀ bs' : List Nat, (∀ b ∈ bs', b < 256) →
        token_urlsafe (List.replicate 32 (0 : Nat)) = token_urlsafe bs' →
        List.replicate 32 (0 : Nat) = bs') ∧
     (∀ c ∈ (token_urlsafe (List.replicate 32 (0 : Nat))).toList,
        c ∈ URLSAFE_ALPHABET ∧ quotePlusSafe c = true) ∧
     quote_plus (token_urlsafe (List.replicate 32 (0 : Nat)))
        = token_urlsafe (List.replicate 32 (0 : Nat))) :=
  ⟨by decide, by decide,
   token_urlsafe_entropy_and_url_safety (List.replicate 32 0) (by decide)
     (by decide)⟩

/-- C6 (confirmed; the store's failure is modelled as the message of the
exception `create_document` raises, `database.py` being outside `src/`).
If record creation fails during a valid submit, the caller gets
`HTTPException(500, str(e))` — a server error whose body carries the
detail string; and the HTTP result (response and store) of a submit is
the same for any two mail environments and any two transport outcomes,
so notification failures never affect it. -/
theorem store_failure_500_and_mail_independence (e : String)
    (env env' : MailEnv) (transport transport' : Option String)
    (tokenBytes : List Nat) (lead : Lead) (store : Store)
    (hc : lead.consent = true) :
    (submit_request (some e) env transport tokenBytes lead store).1.1
      = .httpError 500 e ∧
    (∀ storeFail : Option String,
       (submit_request storeFail env transport tokenBytes lead store).1
         = (submit_request storeFail env' transport' tokenBytes lead store).1) := by
  constructor
  · simp [submit_request, handle_create_lead, validate_lead, hc, create_lead,
      create_document]
  · intro storeFail
    rfl

/-- Witness for C6: store down with detail "db down", sample submission,
two different mail environments and transport outcomes. -/
theorem store_failure_500_witness :
    sampleLead.consent = true ∧
    ((submit_request (some "db down") envAllMissing none [] sampleLead
        ([] : Store)).1.1 = .httpError 500 "db down" ∧
     (∀ storeFail : Option String,
        (submit_request storeFail envAllMissing none [] sampleLead
           ([] : Store)).1
          = (submit_request storeFail envBadPort (some "smtp boom") []
              sampleLead ([] : Store)).1)) :=
  ⟨rfl, store_failure_500_and_mail_independence "db down" envAllMissing
     envBadPort none (some "smtp boom") [] sampleLead [] rfl⟩

/-- C7 counterexample. The claim quantifies over every environment in
which host, username or password is missing; but `_send_email` runs
`int(os.getenv("SMTP_PORT", "587"))` before its fallback check
(`src/main.py:30` vs `:35`), so with the host (and everything else)
unconfigured and `SMTP_PORT` set to the non-integer `"nope"`, the call —
and both notification operations — raises `ValueError` instead of
printing the console fallback. -/
theorem send_email_raises_on_bad_port :
    isBlank envBadPort.smtp_host = true ∧
    _send_email envBadPort none "s" "b" "r"
      = .error "ValueError: invalid literal for int() with base 10" ∧
    notify_admin_waitlist envBadPort none sampleLead
      = .error "ValueError: invalid literal for int() with base 10" ∧
    send_double_opt_in envBadPort none "a@b.com" "tok"
      = .error "ValueError: invalid literal for int() with base 10" := by
  refine ⟨rfl, ?_, ?_, ?_⟩ <;> rfl

/-- C7 as amended (corrected). Whenever the transport is unconfigured —
host, username or password missing — and `SMTP_PORT` is unset or parses
as an integer (the default `"587"` does), both `notify_admin_waitlist`
and `send_double_opt_in` print the `[EMAIL-FALLBACK]` console line
carrying recipient, subject and full body, and return without raising,
whatever the SMTP transport would have done. -/
theorem mail_fallback_logs_message (env : MailEnv) (transport : Option String)
    (lead : Lead) (to_email token : String)
    (hport : (pyInt (env.smtp_port.getD "587")).isSome = true)
    (hmiss : (isBlank env.smtp_host || isBlank env.smtp_username
              || isBlank env.smtp_password) = true) :
    notify_admin_waitlist env transport lead
      = .ok (.consoleLog ("[EMAIL-FALLBACK] To: "
            ++ env.admin_email.getD "max.salterberg@kmu-freight.com"
            ++ "\nSubject: " ++ admin_subject ++ "\n\n" ++ admin_body lead)) ∧
    send_double_opt_in env transport to_email token
      = .ok (.consoleLog ("[EMAIL-FALLBACK] To: " ++ to_email
            ++ "\nSubject: " ++ opt_in_subject ++ "\n\n"
            ++ opt_in_body (confirm_link (env.frontend_url.getD "") token))) := by
  obtain ⟨port, hp⟩ := Option.isSome_iff_exists.mp hport
  constructor <;>
    simp [notify_admin_waitlist, send_double_opt_in, _send_email, hp, hmiss]

/-- Witness for the amended C7: the fully unconfigured environment. -/
theorem mail_fallback_logs_message_witness :
    (pyInt (envAllMissing.smtp_port.getD "587")).isSome = true ∧
    (isBlank envAllMissing.smtp_host || isBlank envAllMissing.smtp_username
      || isBlank envAllMissing.smtp_password) = true ∧
    (notify_admin_waitlist envAllMissing (some "smtp boom") sampleLead
      = .ok (.consoleLog ("[EMAIL-FALLBACK] To: "
            ++ envAllMissing.admin_email.getD "max.salterberg@kmu-freight.com"
            ++ "\nSubject: " ++ admin_subject ++ "\n\n"
            ++ admin_body sampleLead)) ∧
     send_double_opt_in envAllMissing (some "smtp boom") "a@b.com" "tok"
      = .ok (.consoleLog ("[EMAIL-FALLBACK] To: " ++ "a@b.com"
            ++ "\nSubject: " ++ opt_in_subject ++ "\n\n"
            ++ opt_in_body (confirm_link (envAllMissing.frontend_url.getD "")
                "tok")))) :=
  ⟨by decide, by decide,
   mail_fallback_logs_message envAllMissing (some "smtp boom") sampleLead
     "a@b.com" "tok" (by decide) (by decide)⟩

/-- C8 counterexample. The claim quantifies over every token; but with a
base URL configured, `src/main.py:69` passes the token through
`urlencode`, which escapes characters outside the quote-plus-safe set:
for base `"http://x"` and token `"a b"` the composed link is
`http://x/confirm?token=a+b`, not `http://x` ++ `/confirm?token=` ++
`a b` as the claim's form requires. -/
theorem confirm_link_not_verbatim :
    confirm_link "http://x" "a b" = "http://x/confirm?token=a+b" ∧
    confirm_link "http://x" "a b" ≠ "http://x" ++ "/confirm?token=" ++ "a b" := by
  constructor <;> decide

/-- C8 as amended (corrected). For every token whose characters are all
quote-plus-safe (letters, digits, `_ . - ~` — in particular every token
the system issues, by C5), the link composed with a configured base URL
is literally `<base>/confirm?token=<token>`; with no base URL configured
the relative `/confirm?token=<token>` is used (this branch embeds any
token verbatim, but needs the safety hypothesis for the claim's form to
be a well-formed single query parameter); and the opt-in email body sent
by `send_double_opt_in` contains that URL. -/
theorem confirm_link_forms (env : MailEnv) (transport : Option String)
    (to_email token : String)
    (hsafe : ∀ c ∈ token.toList, quotePlusSafe c = true) :
    ((env.frontend_url.getD "").isEmpty = false →
       confirm_link (env.frontend_url.getD "") token
         = env.frontend_url.getD "" ++ "/confirm?token=" ++ token) ∧
    ((env.frontend_url.getD "").isEmpty = true →
       confirm_link (env.frontend_url.getD "") token
         = "/confirm?token=" ++ token) ∧
    send_double_opt_in env transport to_email token
      = _send_email env transport opt_in_subject
          (opt_in_body (confirm_link (env.frontend_url.getD "") token))
          to_email ∧
    (∃ pre post, opt_in_body (confirm_link (env.frontend_url.getD "") token)
        = pre ++ confirm_link (env.frontend_url.getD "") token ++ post) := by
  refine ⟨?_, ?_, rfl, ?_⟩
  · intro hbase
    unfold confirm_link
    rw [hbase]
    simp only [Bool.false_eq_true, if_false]
    have hu : urlencode [("token", token)] = "token=" ++ token := by
      show quote_plus "token" ++ "=" ++ quote_plus token = "token=" ++ token
      rw [quote_plus_of_safe token hsafe]
      rw [show quote_plus "token" = "token" from by decide]
      rw [show ("token" : String) ++ "=" = "token=" from by decide]
    rw [hu, show ("/confirm?token=" : String) = "/confirm?" ++ "token=" from by decide]
    simp only [String.append_assoc]
  · intro hbase
    unfold confirm_link
    rw [hbase]
    simp only [if_true]
  · refine ⟨"Hallo,\n\n"
        ++ "bitte bestätige deine Anmeldung zur Warteliste, indem du auf den folgenden Link klickst:\n",
      ("\n\n"
        ++ "Wenn du diese Anfrage nicht gestellt hast, ignoriere diese Nachricht.\n\n")
        ++ "Viele Grüße\nKMU‑Freight", ?_⟩
    unfold opt_in_body
    simp only [String.append_assoc]

/-- Witness for the amended C8: base URL `http://x`, a safe token. -/
theorem confirm_link_forms_witness :
    (∀ c ∈ ("Abc123-_" : String).toList, quotePlusSafe c = true) ∧
    (((({ envAllMissing with frontend_url := some "http://x" }
          : MailEnv).frontend_url.getD "").isEmpty = false →
       confirm_link (({ envAllMissing with frontend_url := some "http://x" }
          : MailEnv).frontend_url.getD "") "Abc123-_"
         = ({ envAllMissing with frontend_url := some "http://x" }
            : MailEnv).frontend_url.getD "" ++ "/confirm?token=" ++ "Abc123-_") ∧
     ((({ envAllMissing with frontend_url := some "http://x" }
          : MailEnv).frontend_url.getD "").isEmpty = true →
       confirm_link (({ envAllMissing with frontend_url := some "http://x" }
          : MailEnv).frontend_url.getD "") "Abc123-_"
         = "/confirm?token=" ++ "Abc123-_") ∧
     send_double_opt_in ({ envAllMissing with frontend_url := some "http://x" }
          : MailEnv) none "a@b.com" "Abc123-_"
      = _send_email ({ envAllMissing with frontend_url := some "http://x" }
          : MailEnv) none opt_in_subject
          (opt_in_body (confirm_link
            (({ envAllMissing with frontend_url := some "http://x" }
              : MailEnv).frontend_url.getD "") "Abc123-_")) "a@b.com" ∧
     (∃ pre post,
        opt_in_body (confirm_link
            (({ envAllMissing with frontend_url := some "http://x" }
              : MailEnv).frontend_url.getD "") "Abc123-_")
          = pre ++ confirm_link
              (({ envAllMissing with frontend_url := some "http://x" }
                : MailEnv).frontend_url.getD "") "Abc123-_" ++ post)) :=
  ⟨by decide,
   confirm_link_forms { envAllMissing with frontend_url := some "http://x" }
     none "a@b.com" "Abc123-_" (by decide)⟩

end LeadBackend
